import Mathlib

/-!
Shallow embedding of `bsu_dates/__init__.py` (class `BSUCalendar`).

Dates are modelled as civil-calendar triples (year, month, day).  Python
`datetime.date` arithmetic is modelled through the date's rata-die number
(`Date.rd`): `datetime.date` plus `timedelta(days = k)` is exactly rata-die
addition, so derived dates in the assembled table are carried as rata-die
integers.  `dateutil.rrule` yearly rules with `bymonth` and `byweekday = WD(n)`
(or `bymonthday`) are modelled set-based, which is dateutil's documented
behaviour: the days of the target month carrying the requested weekday,
indexed by the signed ordinal `n` (negative ordinals count from the month
end, staying inside the target month), at most one candidate per year,
keeping only candidates on or after `dtstart`.
-/

/-- Gregorian leap-year test (as Python's `calendar`/`datetime` use). -/
def isLeap (yr : Int) : Bool :=
  yr % 4 == 0 && (yr % 100 != 0 || yr % 400 == 0)

/-- Number of days of month `m` of year `yr`. -/
def daysInMonth (yr m : Int) : Int :=
  if m == 2 then (if isLeap yr then 29 else 28)
  else if m == 4 || m == 6 || m == 9 || m == 11 then 30 else 31

/-- Rata-die number of a civil date: days since 1970-01-01 (Hinnant's
`days_from_civil`, with truncating division exactly as the C algorithm). -/
def rdFromCivil (yr m d : Int) : Int :=
  let yAdj := if m ≤ 2 then yr - 1 else yr
  let era := (if 0 ≤ yAdj then yAdj else yAdj - 399) / 400
  let yoe := yAdj - era * 400
  let mp := if 2 < m then m - 3 else m + 9
  let doy := (153 * mp + 2) / 5 + d - 1
  let doe := yoe * 365 + yoe / 4 - yoe / 100 + doy
  era * 146097 + doe - 719468

/-- Day of week, numbered as Python's `date.weekday()` and `dateutil`'s
weekday constants: Monday = 0 … Sunday = 6. -/
def dow (yr m d : Int) : Int := (rdFromCivil yr m d + 3) % 7

/-- A civil date, as Python's `datetime.date`. -/
structure Date where
  y : Int
  m : Int
  d : Int
  deriving DecidableEq, Repr

/-- Rata-die number of a `Date`. -/
def Date.rd (a : Date) : Int := rdFromCivil a.y a.m a.d

theorem rdFromCivil_linear (yr m d : Int) :
    rdFromCivil yr m d = rdFromCivil yr m 1 + (d - 1) := by
  simp only [rdFromCivil]
  split_ifs <;> ring

theorem dow_linear (yr m d : Int) :
    dow yr m d = (dow yr m 1 + (d - 1)) % 7 := by
  unfold dow
  rw [rdFromCivil_linear yr m d]
  omega

theorem dow_nonneg (yr m d : Int) : 0 ≤ dow yr m d := by
  unfold dow; omega

theorem dow_lt7 (yr m d : Int) : dow yr m d < 7 := by
  unfold dow; omega

/-- The candidate days 1 … 31 that a month filter inspects. -/
def monthDays31 : List Int := (List.range 31).map (fun i => (i : Int) + 1)

/-- The days of month `m` of year `yr` falling on weekday `wd`, in increasing
order (dateutil's expansion of `bymonth` + a weekday, before the ordinal
selects one of them). -/
def weekdayDays (yr m wd : Int) : List Int :=
  monthDays31.filter (fun d => decide (d ≤ daysInMonth yr m) && (dow yr m d == wd))

/-- `weekdayDays` as a function of the month length and the weekday of the
month's first day only; used to settle per-weekday facts by finite cases. -/
def weekdayDaysT (len w wd : Int) : List Int :=
  monthDays31.filter (fun d => decide (d ≤ len) && ((w + (d - 1)) % 7 == wd))

theorem filterCongrOwn {α : Type} (l : List α) (p q : α → Bool)
    (h : ∀ a ∈ l, p a = q a) : l.filter p = l.filter q := by
  induction l with
  | nil => rfl
  | cons x xs ih =>
    rw [List.filter_cons, List.filter_cons, h x (List.mem_cons_self x xs),
      ih (fun a ha => h a (List.mem_cons_of_mem x ha))]

theorem weekdayDays_eq (yr m wd : Int) :
    weekdayDays yr m wd = weekdayDaysT (daysInMonth yr m) (dow yr m 1) wd := by
  unfold weekdayDays weekdayDaysT
  exact filterCongrOwn _ _ _ (fun a _ => by rw [dow_linear yr m a])

/-- The `n`-th weekday-`wd` day of month `m` of year `yr`; dateutil semantics:
positive `n` counts from the start of the month, negative `n` from its end,
always inside the target month. -/
def nthWeekday (yr m wd n : Int) : Option Int :=
  if 0 < n then (weekdayDays yr m wd).get? (n - 1).toNat
  else if n < 0 then (weekdayDays yr m wd).reverse.get? (-n - 1).toNat
  else none

/-- Template version of `nthWeekday` over `weekdayDaysT`. -/
def nthWeekdayT (len w wd n : Int) : Option Int :=
  if 0 < n then (weekdayDaysT len w wd).get? (n - 1).toNat
  else if n < 0 then (weekdayDaysT len w wd).reverse.get? (-n - 1).toNat
  else none

theorem nthWeekday_eq (yr m wd n : Int) :
    nthWeekday yr m wd n = nthWeekdayT (daysInMonth yr m) (dow yr m 1) wd n := by
  unfold nthWeekday nthWeekdayT
  rw [weekdayDays_eq]

/-! ### The repository's eight recurrence rules

Each of the eight rule methods of `BSUCalendar` fixes a month plus either a
signed ordinal weekday or a fixed day of month (source lines 281-375):
Thanksgiving = Nov TH(4), Labor Day = Sep MO(1), MLK Day = Jan MO(3),
Memorial Day = Mar MO(-1), Independence Day = Jul day 4,
Fall Term Start = Aug MO(-2), Fall Break Start = Oct MO(-2),
Spring Withdraw Deadline = Mar MO(3).  None of the months is February, so the
month length never depends on the year, and the resolved day of month is a
function of the weekday of the month's first day alone.  The five
(length, weekday, ordinal) combinations that occur get one template function
each, settled by cases on that weekday. -/

/-- Day resolved by MO(-2) in a 31-day month whose day 1 has weekday `w`. -/
def dayMoLast2W (w : Int) : Int := (nthWeekdayT 31 w 0 (-2)).getD 0

/-- Day resolved by MO(3) in a 31-day month whose day 1 has weekday `w`. -/
def dayMo3W (w : Int) : Int := (nthWeekdayT 31 w 0 3).getD 0

/-- Day resolved by MO(-1) in a 31-day month whose day 1 has weekday `w`. -/
def dayMoLastW (w : Int) : Int := (nthWeekdayT 31 w 0 (-1)).getD 0

/-- Day resolved by MO(1) in a 30-day month whose day 1 has weekday `w`. -/
def dayMo1of30W (w : Int) : Int := (nthWeekdayT 30 w 0 1).getD 0

/-- Day resolved by TH(4) in a 30-day month whose day 1 has weekday `w`. -/
def dayTh4of30W (w : Int) : Int := (nthWeekdayT 30 w 3 4).getD 0

theorem dayMoLast2W_spec (w : Int) (h0 : 0 ≤ w) (h7 : w < 7) :
    nthWeekdayT 31 w 0 (-2) = some (dayMoLast2W w) ∧
    18 ≤ dayMoLast2W w ∧ dayMoLast2W w ≤ 24 ∧
    (w + (dayMoLast2W w - 1)) % 7 = 0 := by
  interval_cases w <;> decide

theorem dayMoLast2W_second (w : Int) (h0 : 0 ≤ w) (h7 : w < 7) :
    dayMoLast2W w ∈ weekdayDaysT 31 w 0 ∧
    ((weekdayDaysT 31 w 0).filter (fun d => decide (dayMoLast2W w < d))).length = 1 ∧
    ((weekdayDaysT 31 w 0).length = 4 ∨ (weekdayDaysT 31 w 0).length = 5) := by
  interval_cases w <;> decide

theorem dayMo3W_spec (w : Int) (h0 : 0 ≤ w) (h7 : w < 7) :
    nthWeekdayT 31 w 0 3 = some (dayMo3W w) ∧
    15 ≤ dayMo3W w ∧ dayMo3W w ≤ 21 ∧
    (w + (dayMo3W w - 1)) % 7 = 0 := by
  interval_cases w <;> decide

theorem dayMo3W_third (w : Int) (h0 : 0 ≤ w) (h7 : w < 7) :
    dayMo3W w ∈ weekdayDaysT 31 w 0 ∧
    ((weekdayDaysT 31 w 0).filter (fun d => decide (d < dayMo3W w))).length = 2 := by
  interval_cases w <;> decide

theorem dayMoLastW_spec (w : Int) (h0 : 0 ≤ w) (h7 : w < 7) :
    nthWeekdayT 31 w 0 (-1) = some (dayMoLastW w) ∧
    25 ≤ dayMoLastW w ∧ dayMoLastW w ≤ 31 ∧
    (w + (dayMoLastW w - 1)) % 7 = 0 := by
  interval_cases w <;> decide

theorem dayMo1of30W_spec (w : Int) (h0 : 0 ≤ w) (h7 : w < 7) :
    nthWeekdayT 30 w 0 1 = some (dayMo1of30W w) ∧
    1 ≤ dayMo1of30W w ∧ dayMo1of30W w ≤ 7 ∧
    (w + (dayMo1of30W w - 1)) % 7 = 0 := by
  interval_cases w <;> decide

theorem dayTh4of30W_spec (w : Int) (h0 : 0 ≤ w) (h7 : w < 7) :
    nthWeekdayT 30 w 3 4 = some (dayTh4of30W w) ∧
    22 ≤ dayTh4of30W w ∧ dayTh4of30W w ≤ 28 ∧
    (w + (dayTh4of30W w - 1)) % 7 = 3 := by
  interval_cases w <;> decide

/-- Fall Term Start day of month: MO(-2) of August (source `_fall_start`). -/
def fallStartDay (yr : Int) : Int := dayMoLast2W (dow yr 8 1)

/-- Fall Break Start day of month: MO(-2) of October (source `_fall_break_start`). -/
def fallBreakDay (yr : Int) : Int := dayMoLast2W (dow yr 10 1)

/-- MLK Day day of month: MO(3) of January (source `_mlk_day`). -/
def mlkDayFn (yr : Int) : Int := dayMo3W (dow yr 1 1)

/-- Spring withdraw deadline day of month: MO(3) of March (source
`_spring_withdraw_deadline`). -/
def springWithdrawDay (yr : Int) : Int := dayMo3W (dow yr 3 1)

/-- Memorial Day day of month: MO(-1) of March (source `_memorial_day`). -/
def memorialDayFn (yr : Int) : Int := dayMoLastW (dow yr 3 1)

/-- Labor Day day of month: MO(1) of September (source `_labor_day`). -/
def laborDayFn (yr : Int) : Int := dayMo1of30W (dow yr 9 1)

/-- Thanksgiving day of month: TH(4) of November (source `_thanksgiving`). -/
def thanksgivingDay (yr : Int) : Int := dayTh4of30W (dow yr 11 1)

theorem fallStart_nth (yr : Int) :
    nthWeekday yr 8 0 (-2) = some (fallStartDay yr) := by
  rw [nthWeekday_eq, show daysInMonth yr 8 = 31 from rfl]
  exact (dayMoLast2W_spec (dow yr 8 1) (dow_nonneg yr 8 1) (dow_lt7 yr 8 1)).1

theorem fallBreak_nth (yr : Int) :
    nthWeekday yr 10 0 (-2) = some (fallBreakDay yr) := by
  rw [nthWeekday_eq, show daysInMonth yr 10 = 31 from rfl]
  exact (dayMoLast2W_spec (dow yr 10 1) (dow_nonneg yr 10 1) (dow_lt7 yr 10 1)).1

theorem mlk_nth (yr : Int) :
    nthWeekday yr 1 0 3 = some (mlkDayFn yr) := by
  rw [nthWeekday_eq, show daysInMonth yr 1 = 31 from rfl]
  exact (dayMo3W_spec (dow yr 1 1) (dow_nonneg yr 1 1) (dow_lt7 yr 1 1)).1

theorem springWithdraw_nth (yr : Int) :
    nthWeekday yr 3 0 3 = some (springWithdrawDay yr) := by
  rw [nthWeekday_eq, show daysInMonth yr 3 = 31 from rfl]
  exact (dayMo3W_spec (dow yr 3 1) (dow_nonneg yr 3 1) (dow_lt7 yr 3 1)).1

theorem memorial_nth (yr : Int) :
    nthWeekday yr 3 0 (-1) = some (memorialDayFn yr) := by
  rw [nthWeekday_eq, show daysInMonth yr 3 = 31 from rfl]
  exact (dayMoLastW_spec (dow yr 3 1) (dow_nonneg yr 3 1) (dow_lt7 yr 3 1)).1

theorem labor_nth (yr : Int) :
    nthWeekday yr 9 0 1 = some (laborDayFn yr) := by
  rw [nthWeekday_eq, show daysInMonth yr 9 = 30 from rfl]
  exact (dayMo1of30W_spec (dow yr 9 1) (dow_nonneg yr 9 1) (dow_lt7 yr 9 1)).1

theorem thanksgiving_nth (yr : Int) :
    nthWeekday yr 11 3 4 = some (thanksgivingDay yr) := by
  rw [nthWeekday_eq, show daysInMonth yr 11 = 30 from rfl]
  exact (dayTh4of30W_spec (dow yr 11 1) (dow_nonneg yr 11 1) (dow_lt7 yr 11 1)).1

/-! ### Yearly recurrence generators (`_irule` / `dateutil.rrule`) -/

/-- The day selector of a yearly rule: a signed ordinal weekday
(`byweekday = WD(n)`) or a fixed day of month (`bymonthday = d`). -/
inductive DayRule where
  | nth (wd n : Int)
  | monthDay (d : Int)
  deriving DecidableEq, Repr

/-- The date (if any) that a yearly rule with month `m` and selector `r`
contributes in year `yr`. -/
def ruleDateInYear (m : Int) (r : DayRule) (yr : Int) : Option Date :=
  match r with
  | .nth wd n => (nthWeekday yr m wd n).map (fun d => ⟨yr, m, d⟩)
  | .monthDay d =>
      if decide (1 ≤ d) && decide (d ≤ daysInMonth yr m) then some ⟨yr, m, d⟩ else none

/-- Civil-date comparison, as Python compares `datetime.date` values. -/
def dateLe (a b : Date) : Bool :=
  decide (a.y < b.y) ||
    (a.y == b.y && (decide (a.m < b.m) || (a.m == b.m && decide (a.d ≤ b.d))))

/-- `k` consecutive years starting at `a` (the years a windowed yearly rule
walks through). -/
def yearsFrom (a : Int) : Nat → List Int
  | 0 => []
  | k + 1 => a :: yearsFrom (a + 1) k

/-- Python's `range(a, b)` over integers. -/
def intRange (a b : Int) : List Int := yearsFrom a (b - a).toNat

/-- The date sequence of `rrule(YEARLY, bymonth := m, r, dtstart, count)`:
one candidate per year from `dtstart`'s year on, keeping candidates on or
after `dtstart`, cut to `count` values.  Scanning `count + 1` years is
exhaustive here: every rule of this repository contributes a date in every
year (its month is never February and its ordinal always resolves), so at
most the first scanned year's candidate can fall before `dtstart`. -/
def ruleDates (m : Int) (r : DayRule) (dtstart : Date) (count : Nat) : List Date :=
  (((yearsFrom dtstart.y (count + 1)).filterMap (ruleDateInYear m r)).filter
      (fun dt => dateLe dtstart dt)).take count

theorem mem_yearsFrom {x : Int} :
    ∀ {k : Nat} {a : Int}, x ∈ yearsFrom a k → a ≤ x := by
  intro k
  induction k with
  | zero => intro a h; simp [yearsFrom] at h
  | succ k ih =>
    intro a h
    rw [yearsFrom] at h
    rcases List.mem_cons.mp h with h | h
    · omega
    · have := ih h; omega

theorem yearsFrom_length (a : Int) (k : Nat) : (yearsFrom a k).length = k := by
  induction k generalizing a with
  | zero => rfl
  | succ k ih => rw [yearsFrom]; simp [ih]

theorem yearsFrom_take (k : Nat) :
    ∀ a : Int, (yearsFrom a (k + 1)).take k = yearsFrom a k := by
  induction k with
  | zero => intro a; rfl
  | succ k ih =>
    intro a
    show (a :: yearsFrom (a + 1) (k + 1)).take (k + 1) = a :: yearsFrom (a + 1) k
    rw [List.take_succ_cons, ih (a + 1)]

theorem filterMapTotal {α β : Type} (g : α → Option β) (f : α → β) :
    ∀ l : List α, (∀ x ∈ l, g x = some (f x)) → l.filterMap g = l.map f := by
  intro l
  induction l with
  | nil => intro _; rfl
  | cons x xs ih =>
    intro h
    rw [List.filterMap_cons, h x (List.mem_cons_self x xs), List.map_cons,
      ih (fun a ha => h a (List.mem_cons_of_mem x ha))]

theorem dateLe_of_year_lt {a b : Date} (h : a.y < b.y) : dateLe a b = true := by
  simp [dateLe, h]

/-- A rule that contributes `⟨yr, m, f yr⟩` in every year, whose first
scanned candidate is already on/after `dtstart`, generates exactly one date
per year from `dtstart`'s year on. -/
theorem ruleDates_keep (m : Int) (r : DayRule) (f : Int → Int) (st : Date) (n : Nat)
    (hf : ∀ yr : Int, ruleDateInYear m r yr = some ⟨yr, m, f yr⟩)
    (h0 : dateLe st ⟨st.y, m, f st.y⟩ = true) :
    ruleDates m r st n = (yearsFrom st.y n).map (fun yr => (⟨yr, m, f yr⟩ : Date)) := by
  unfold ruleDates
  rw [filterMapTotal _ (fun yr => (⟨yr, m, f yr⟩ : Date)) _ (fun x _ => hf x)]
  rw [List.filter_eq_self.mpr ?kept]
  case kept =>
    intro dt hdt
    rw [List.mem_map] at hdt
    obtain ⟨yr, hyr, rfl⟩ := hdt
    have hle : st.y ≤ yr := mem_yearsFrom hyr
    rcases lt_or_eq_of_le hle with hlt | heq
    · exact dateLe_of_year_lt hlt
    · rw [← heq]; exact h0
  rw [← List.map_take, yearsFrom_take]

/-- A rule whose month lies before August generates, when windowed from
August 1 of `sy`, one date per year starting with year `sy + 1`: the
candidate of year `sy` itself falls before `dtstart` and is dropped. -/
theorem ruleDates_drop (m : Int) (r : DayRule) (f : Int → Int) (sy : Int) (n : Nat)
    (hf : ∀ yr : Int, ruleDateInYear m r yr = some ⟨yr, m, f yr⟩)
    (hm : m < 8) :
    ruleDates m r ⟨sy, 8, 1⟩ n
      = (yearsFrom (sy + 1) n).map (fun yr => (⟨yr, m, f yr⟩ : Date)) := by
  unfold ruleDates
  rw [show (⟨sy, 8, 1⟩ : Date).y = sy from rfl,
    show yearsFrom sy (n + 1) = sy :: yearsFrom (sy + 1) n from rfl,
    List.filterMap_cons, hf sy, List.filter_cons]
  have hfalse : dateLe ⟨sy, 8, 1⟩ ⟨sy, m, f sy⟩ = false := by
    have h2 : ¬ ((8 : Int) < m) := by omega
    have h3 : ((8 : Int) == m) = false := by
      rw [beq_eq_false_iff_ne]; omega
    simp [dateLe, h2, h3]
  rw [hfalse]
  simp only [Bool.false_eq_true, if_false]
  rw [filterMapTotal _ (fun yr => (⟨yr, m, f yr⟩ : Date)) _ (fun x _ => hf x)]
  rw [List.filter_eq_self.mpr ?keptTail]
  case keptTail =>
    intro dt hdt
    rw [List.mem_map] at hdt
    obtain ⟨yr, hyr, rfl⟩ := hdt
    have hle : sy + 1 ≤ yr := mem_yearsFrom hyr
    exact dateLe_of_year_lt (show (⟨sy, 8, 1⟩ : Date).y < yr by show sy < yr; omega)
  exact List.take_of_length_le (by rw [List.length_map, yearsFrom_length])

theorem fallStart_total (yr : Int) :
    ruleDateInYear 8 (.nth 0 (-2)) yr = some ⟨yr, 8, fallStartDay yr⟩ := by
  show (nthWeekday yr 8 0 (-2)).map (fun d => (⟨yr, 8, d⟩ : Date))
    = some ⟨yr, 8, fallStartDay yr⟩
  rw [fallStart_nth]
  rfl

theorem fallBreak_total (yr : Int) :
    ruleDateInYear 10 (.nth 0 (-2)) yr = some ⟨yr, 10, fallBreakDay yr⟩ := by
  show (nthWeekday yr 10 0 (-2)).map (fun d => (⟨yr, 10, d⟩ : Date))
    = some ⟨yr, 10, fallBreakDay yr⟩
  rw [fallBreak_nth]
  rfl

theorem mlk_total (yr : Int) :
    ruleDateInYear 1 (.nth 0 3) yr = some ⟨yr, 1, mlkDayFn yr⟩ := by
  show (nthWeekday yr 1 0 3).map (fun d => (⟨yr, 1, d⟩ : Date))
    = some ⟨yr, 1, mlkDayFn yr⟩
  rw [mlk_nth]
  rfl

theorem springWithdraw_total (yr : Int) :
    ruleDateInYear 3 (.nth 0 3) yr = some ⟨yr, 3, springWithdrawDay yr⟩ := by
  show (nthWeekday yr 3 0 3).map (fun d => (⟨yr, 3, d⟩ : Date))
    = some ⟨yr, 3, springWithdrawDay yr⟩
  rw [springWithdraw_nth]
  rfl

theorem memorial_total (yr : Int) :
    ruleDateInYear 3 (.nth 0 (-1)) yr = some ⟨yr, 3, memorialDayFn yr⟩ := by
  show (nthWeekday yr 3 0 (-1)).map (fun d => (⟨yr, 3, d⟩ : Date))
    = some ⟨yr, 3, memorialDayFn yr⟩
  rw [memorial_nth]
  rfl

theorem labor_total (yr : Int) :
    ruleDateInYear 9 (.nth 0 1) yr = some ⟨yr, 9, laborDayFn yr⟩ := by
  show (nthWeekday yr 9 0 1).map (fun d => (⟨yr, 9, d⟩ : Date))
    = some ⟨yr, 9, laborDayFn yr⟩
  rw [labor_nth]
  rfl

theorem thanksgiving_total (yr : Int) :
    ruleDateInYear 11 (.nth 3 4) yr = some ⟨yr, 11, thanksgivingDay yr⟩ := by
  show (nthWeekday yr 11 3 4).map (fun d => (⟨yr, 11, d⟩ : Date))
    = some ⟨yr, 11, thanksgivingDay yr⟩
  rw [thanksgiving_nth]
  rfl

theorem independence_total (yr : Int) :
    ruleDateInYear 7 (.monthDay 4) yr = some ⟨yr, 7, 4⟩ := rfl

theorem fallStartDay_bounds (yr : Int) :
    18 ≤ fallStartDay yr ∧ fallStartDay yr ≤ 24 := by
  have h := dayMoLast2W_spec (dow yr 8 1) (dow_nonneg yr 8 1) (dow_lt7 yr 8 1)
  exact ⟨h.2.1, h.2.2.1⟩

theorem mlkDayFn_bounds (yr : Int) :
    15 ≤ mlkDayFn yr ∧ mlkDayFn yr ≤ 21 := by
  have h := dayMo3W_spec (dow yr 1 1) (dow_nonneg yr 1 1) (dow_lt7 yr 1 1)
  exact ⟨h.2.1, h.2.2.1⟩

/-! ### The eight generators, windowed from `min_date` = August 1 of the
first configured year with `count = n_yrs` (source lines 74-83).  Rules whose
month is on/after August emit their first date already in the first
configured year; rules whose month precedes August skip it and emit their
first date in the following calendar year. -/

theorem ruleDates_fallStart (sy : Int) (n : Nat) :
    ruleDates 8 (.nth 0 (-2)) ⟨sy, 8, 1⟩ n
      = (yearsFrom sy n).map (fun yr => (⟨yr, 8, fallStartDay yr⟩ : Date)) := by
  apply ruleDates_keep 8 _ fallStartDay _ n fallStart_total
  have hb := fallStartDay_bounds sy
  simp [dateLe]
  omega

theorem ruleDates_fallBreak (sy : Int) (n : Nat) :
    ruleDates 10 (.nth 0 (-2)) ⟨sy, 8, 1⟩ n
      = (yearsFrom sy n).map (fun yr => (⟨yr, 10, fallBreakDay yr⟩ : Date)) := by
  apply ruleDates_keep 10 _ fallBreakDay _ n fallBreak_total
  simp [dateLe]

theorem ruleDates_labor (sy : Int) (n : Nat) :
    ruleDates 9 (.nth 0 1) ⟨sy, 8, 1⟩ n
      = (yearsFrom sy n).map (fun yr => (⟨yr, 9, laborDayFn yr⟩ : Date)) := by
  apply ruleDates_keep 9 _ laborDayFn _ n labor_total
  simp [dateLe]

theorem ruleDates_thanksgiving (sy : Int) (n : Nat) :
    ruleDates 11 (.nth 3 4) ⟨sy, 8, 1⟩ n
      = (yearsFrom sy n).map (fun yr => (⟨yr, 11, thanksgivingDay yr⟩ : Date)) := by
  apply ruleDates_keep 11 _ thanksgivingDay _ n thanksgiving_total
  simp [dateLe]

theorem ruleDates_mlk (sy : Int) (n : Nat) :
    ruleDates 1 (.nth 0 3) ⟨sy, 8, 1⟩ n
      = (yearsFrom (sy + 1) n).map (fun yr => (⟨yr, 1, mlkDayFn yr⟩ : Date)) :=
  ruleDates_drop 1 _ mlkDayFn sy n mlk_total (by omega)

theorem ruleDates_springWithdraw (sy : Int) (n : Nat) :
    ruleDates 3 (.nth 0 3) ⟨sy, 8, 1⟩ n
      = (yearsFrom (sy + 1) n).map (fun yr => (⟨yr, 3, springWithdrawDay yr⟩ : Date)) :=
  ruleDates_drop 3 _ springWithdrawDay sy n springWithdraw_total (by omega)

theorem ruleDates_memorial (sy : Int) (n : Nat) :
    ruleDates 3 (.nth 0 (-1)) ⟨sy, 8, 1⟩ n
      = (yearsFrom (sy + 1) n).map (fun yr => (⟨yr, 3, memorialDayFn yr⟩ : Date)) :=
  ruleDates_drop 3 _ memorialDayFn sy n memorial_total (by omega)

theorem ruleDates_independence (sy : Int) (n : Nat) :
    ruleDates 7 (.monthDay 4) ⟨sy, 8, 1⟩ n
      = (yearsFrom (sy + 1) n).map (fun yr => (⟨yr, 7, 4⟩ : Date)) :=
  ruleDates_drop 7 _ (fun _ => 4) sy n independence_total (by omega)

/-- A one-value window from January 1 (as `get_holiday` requests with
`dtstart = date(year, 1, 1)`, `count = 1`) yields the rule's date of that
same calendar year, whenever that date is on/after January 1. -/
theorem ruleDates_one (m : Int) (r : DayRule) (f : Int → Int) (z : Int)
    (hf : ∀ yr : Int, ruleDateInYear m r yr = some ⟨yr, m, f yr⟩)
    (h0 : dateLe ⟨z, 1, 1⟩ ⟨z, m, f z⟩ = true) :
    ruleDates m r ⟨z, 1, 1⟩ 1 = [⟨z, m, f z⟩] := by
  rw [ruleDates_keep m r f ⟨z, 1, 1⟩ 1 hf h0]
  rfl

/-! ### Error taxonomy

Maps the Python exceptions of the source onto one inductive: `configError`
stands for the `ValueError`s raised by explicit checks and by
`pandas.concat` on an empty list; `exhaustion` for `StopIteration` from a
consumed generator; `indexError` for indexing an empty result list in
`get_holiday`; `attrNotCallableAsRule` for the `AssertionError`/`TypeError`
raised when `get_holiday` finds an attribute that is not one of the eight
recurrence-rule methods and calls it; `holidayNotRecognized` for
`get_holiday`'s "Holiday ... not recognized" `ValueError`; `lookupError`
for the spec's LookupError of the modelled `lookup`. -/
inductive CalError where
  | configError (msg : String)
  | exhaustion
  | indexError
  | attrNotCallableAsRule (attr : String)
  | holidayNotRecognized (name : String)
  | lookupError (msg : String)
  deriving DecidableEq, Repr

/-- One row of the assembled table (a row of `dates_df`): columns Term,
Year, Semester, DateName, Date (as rata-die number), Tags. -/
structure Row where
  term : Int
  year : Int
  semester : String
  dateName : String
  date : Int
  tags : String
  deriving DecidableEq, Repr

/-- `_get_fall_dates` (source lines 161-194).  Receives the term's start and
end and the already-drawn generator values as rata-die numbers. -/
def getFallDates (yr : Int) (fStart fEnd fBreakStart laborD thankD : Int) : List Row :=
  let fTerm := 100 * yr + 10
  let fBreakEnd := fBreakStart + 1
  let fWithdrawEnd := fBreakEnd + 1
  let row := fun (nm : String) (dt : Int) (tg : String) => Row.mk fTerm yr "Fall" nm dt tg
  [ row "Term Start" fStart "Instruction",
    row "Classes Start" fStart "Instruction",
    row "Late Registration Start" fStart "Registration",
    row "Late Registration End" (fStart + 4) "Registration",
    row "Break Start" fBreakStart "Instruction",
    row "Break End" fBreakEnd "Instruction",
    row "Withdraw Deadline" fWithdrawEnd "Registration",
    row "Thanksgiving Break Start" (thankD - 1) "Instruction",
    row "Thanksgiving" thankD "Instruction,Holiday",
    row "Thanksgiving Break End" (thankD + 1) "Instruction",
    row "Labor Day" laborD "Instruction,Holiday",
    row "Classes End" (fEnd - 4) "Instruction",
    row "Finals Start" (fEnd - 3) "Instruction",
    row "Finals End" fEnd "Instruction",
    row "Term End" (fEnd - 3) "Instruction",
    row "Final Grades Due" (fEnd + 3) "Instruction" ]

/-- `_get_spring_dates` (source lines 196-217); `timedelta(weeks = 9)` is 63
days and `timedelta(weeks = 8)` is 56 days. -/
def getSpringDates (yr : Int) (spStart spEnd mlkD swdD : Int) : List Row :=
  let spTerm := 100 * yr + 20
  let spBreakStart := if yr = 2013 then spStart + 63 else spStart + 56
  let row := fun (nm : String) (dt : Int) (tg : String) => Row.mk spTerm yr "Spring" nm dt tg
  [ row "Term Start" spStart "Instruction",
    row "Classes Start" spStart "Instruction",
    row "MLK Day" mlkD "Instruction,Holiday",
    row "Break Start" spBreakStart "Instruction",
    row "Break End" (spBreakStart + 4) "Instruction",
    row "Withdraw Deadline" swdD "Registration",
    row "Classes End" (spEnd - 4) "Instruction",
    row "Finals Start" (spEnd - 3) "Instruction",
    row "Finals End" spEnd "Instruction",
    row "Term End" spEnd "Instruction",
    row "Final Grades Due" (spEnd + 3) "Instruction" ]

/-- `_get_summer_dates` (source lines 219-227).  The Python method also
receives the `memorial_day` generator but never calls `next` on it, so it
takes no memorial-day argument here. -/
def getSummerDates (yr : Int) (smStart smEnd indepD : Int) : List Row :=
  let smTerm := 100 * yr + 30
  let row := fun (nm : String) (dt : Int) (tg : String) => Row.mk smTerm yr "Summer" nm dt tg
  [ row "Term Start" smStart "Instruction",
    row "Independence Day" indepD "Instruction,Holiday",
    row "Term End" smEnd "Instruction",
    row "Final Grades Due" (smEnd + 3) "Instruction" ]

/-- The per-year data the constructor's loop body computes (source lines
88-111): the anchors drawn from the generators and the term boundaries. -/
structure YearDates where
  year : Int
  fStartD : Date
  fStart : Int
  fEnd : Int
  spStart : Int
  spEnd : Int
  smStart : Int
  smEnd : Int
  fbreak : Date
  labor : Date
  thank : Date
  mlk : Date
  swd : Date
  indep : Date
  deriving DecidableEq, Repr

/-- Term boundaries of one loop iteration (source lines 90-97):
`term_length` = 116 days, `xmas_break` = 24 days, `sum_term_length` = 68
days; note `sm_end` is offset from `sp_start`. -/
def mkYd (yr : Int) (fs fb la th mk sw ind : Date) : YearDates :=
  let fStart := fs.rd
  let fEnd := fStart + 116
  let spStart := fEnd + 24
  let spEnd := spStart + 116
  let smStart := spEnd + 10
  let smEnd := spStart + 68
  ⟨yr, fs, fStart, fEnd, spStart, spEnd, smStart, smEnd, fb, la, th, mk, sw, ind⟩

/-- The three semesters' rows of one year, in the order the constructor
appends them (Fall, Spring, Summer). -/
def rowsOfYear (yd : YearDates) : List Row :=
  getFallDates yd.year yd.fStart yd.fEnd yd.fbreak.rd yd.labor.rd yd.thank.rd
    ++ getSpringDates yd.year yd.spStart yd.spEnd yd.mlk.rd yd.swd.rd
    ++ getSummerDates yd.year yd.smStart yd.smEnd yd.indep.rd

/-- The state of the eight generators during construction, each a
forward-only sequence of remaining dates. -/
structure Gens where
  fallSt : List Date
  fbreak : List Date
  labor : List Date
  thanks : List Date
  mlk : List Date
  swd : List Date
  indep : List Date
  memorial : List Date
  deriving DecidableEq, Repr

/-- The constructor's per-year loop (source lines 88-111).  Each iteration
draws the next value from the fall-start generator and from the generators
consumed inside `_get_fall_dates` (fall break, labor day, thanksgiving),
`_get_spring_dates` (MLK day, spring withdraw) and `_get_summer_dates`
(independence day); an exhausted generator raises `StopIteration`.  The
memorial-day generator is passed along but never consumed. -/
def buildLoop : List Int → Gens → Except CalError (List YearDates × Gens)
  | [], g => .ok ([], g)
  | yr :: rest, g =>
      match g.fallSt, g.fbreak, g.labor, g.thanks, g.mlk, g.swd, g.indep with
      | fs :: fsT, fb :: fbT, la :: laT, th :: thT, mk :: mkT, sw :: swT, ind :: indT =>
          match buildLoop rest ⟨fsT, fbT, laT, thT, mkT, swT, indT, g.memorial⟩ with
          | .ok (tl, gFin) => .ok (mkYd yr fs fb la th mk sw ind :: tl, gFin)
          | .error e => .error e
      | _, _, _, _, _, _, _ => .error .exhaustion

/-- The eight generators as created in the constructor (source lines 74-83),
each windowed by `dtstart = min_date` (August 1 of `sy`) and
`count = n_yrs`. -/
def gens0 (sy ey : Int) : Gens :=
  ⟨ruleDates 8 (.nth 0 (-2)) ⟨sy, 8, 1⟩ (intRange sy ey).length,
   ruleDates 10 (.nth 0 (-2)) ⟨sy, 8, 1⟩ (intRange sy ey).length,
   ruleDates 9 (.nth 0 1) ⟨sy, 8, 1⟩ (intRange sy ey).length,
   ruleDates 11 (.nth 3 4) ⟨sy, 8, 1⟩ (intRange sy ey).length,
   ruleDates 1 (.nth 0 3) ⟨sy, 8, 1⟩ (intRange sy ey).length,
   ruleDates 3 (.nth 0 3) ⟨sy, 8, 1⟩ (intRange sy ey).length,
   ruleDates 7 (.monthDay 4) ⟨sy, 8, 1⟩ (intRange sy ey).length,
   ruleDates 3 (.nth 0 (-1)) ⟨sy, 8, 1⟩ (intRange sy ey).length⟩

/-- Running the constructor's loop over the configured years. -/
def buildYears (sy ey : Int) : Except CalError (List YearDates × Gens) :=
  buildLoop (intRange sy ey) (gens0 sy ey)

/-- `BSUCalendar.__init__(start_year, end_year)`: builds the full table.
`pd.concat` on the empty list of per-semester frames (which happens exactly
when the year range is empty) raises `ValueError("No objects to
concatenate")`. -/
def bsuInit (sy ey : Int) : Except CalError (List Row) :=
  match buildYears sy ey with
  | .ok (yds, _) =>
      if yds.isEmpty then .error (.configError "No objects to concatenate")
      else .ok (yds.flatMap rowsOfYear)
  | .error e => .error e

/-- The year records the constructor produced (empty on failure). -/
def initYds (sy ey : Int) : List YearDates :=
  match buildYears sy ey with
  | .ok (yds, _) => yds
  | .error _ => []

/-- The generators' remaining values after construction (empty on failure). -/
def initLeft (sy ey : Int) : Gens :=
  match buildYears sy ey with
  | .ok (_, g) => g
  | .error _ => ⟨[], [], [], [], [], [], [], []⟩

/-- The assembled table's rows (empty on failure). -/
def initRows (sy ey : Int) : List Row :=
  match bsuInit sy ey with
  | .ok rows => rows
  | .error _ => []

/-- The date of the first row with the given term code and event name. -/
def rowDate (rows : List Row) (termCode : Int) (nm : String) : Option Int :=
  (rows.find? (fun r => r.term == termCode && r.dateName == nm)).map (fun r => r.date)

/-- The date of the first row with the given event name (event names are
unique within one semester's rows). -/
def semRowDate (rows : List Row) (nm : String) : Option Int :=
  (rows.find? (fun r => r.dateName == nm)).map (fun r => r.date)

/-- The anchors and boundaries the constructor computes for academic year
`yr`: fall-side anchors of calendar year `yr`, spring/summer-side anchors of
calendar year `yr + 1`. -/
def yearDatesOf (yr : Int) : YearDates :=
  mkYd yr ⟨yr, 8, fallStartDay yr⟩ ⟨yr, 10, fallBreakDay yr⟩ ⟨yr, 9, laborDayFn yr⟩
    ⟨yr, 11, thanksgivingDay yr⟩ ⟨yr + 1, 1, mlkDayFn (yr + 1)⟩
    ⟨yr + 1, 3, springWithdrawDay (yr + 1)⟩ ⟨yr + 1, 7, 4⟩

/-- Lockstep consumption: when the fall-side generators hold one value per
configured year and the spring/summer-side generators one value per year
shifted by one calendar year, the loop succeeds, produces one `YearDates`
per year, empties the seven consumed generators and leaves the eighth
untouched. -/
theorem buildLoop_spec (F FB LA TH MK SW IND : Int → Date) (M : List Date) :
    ∀ (n : Nat) (sy : Int),
      buildLoop (yearsFrom sy n)
        ⟨(yearsFrom sy n).map F, (yearsFrom sy n).map FB, (yearsFrom sy n).map LA,
         (yearsFrom sy n).map TH, (yearsFrom (sy + 1) n).map MK,
         (yearsFrom (sy + 1) n).map SW, (yearsFrom (sy + 1) n).map IND, M⟩
      = .ok ((yearsFrom sy n).map
              (fun yr => mkYd yr (F yr) (FB yr) (LA yr) (TH yr) (MK (yr + 1))
                (SW (yr + 1)) (IND (yr + 1))),
             ⟨[], [], [], [], [], [], [], M⟩) := by
  intro n
  induction n with
  | zero => intro sy; rfl
  | succ n ih =>
    intro sy
    show buildLoop (sy :: yearsFrom (sy + 1) n)
        ⟨(sy :: yearsFrom (sy + 1) n).map F, (sy :: yearsFrom (sy + 1) n).map FB,
         (sy :: yearsFrom (sy + 1) n).map LA, (sy :: yearsFrom (sy + 1) n).map TH,
         ((sy + 1) :: yearsFrom (sy + 1 + 1) n).map MK,
         ((sy + 1) :: yearsFrom (sy + 1 + 1) n).map SW,
         ((sy + 1) :: yearsFrom (sy + 1 + 1) n).map IND, M⟩ = _
    simp only [List.map_cons, buildLoop]
    rw [ih (sy + 1)]
    rfl

theorem intRange_eq (sy ey : Int) :
    intRange sy ey = yearsFrom sy (ey - sy).toNat := rfl

/-- Master characterization of the constructor's loop on the real
generators: it always succeeds, yields `yearDatesOf` for each configured
year in order, exhausts seven generators and never touches the
memorial-day one. -/
theorem buildYears_eq (sy ey : Int) :
    buildYears sy ey
      = .ok ((intRange sy ey).map yearDatesOf,
             ⟨[], [], [], [], [], [], [],
              (yearsFrom (sy + 1) (intRange sy ey).length).map
                (fun yr => (⟨yr, 3, memorialDayFn yr⟩ : Date))⟩) := by
  unfold buildYears gens0
  rw [intRange_eq, yearsFrom_length]
  rw [ruleDates_fallStart, ruleDates_fallBreak, ruleDates_labor,
    ruleDates_thanksgiving, ruleDates_mlk, ruleDates_springWithdraw,
    ruleDates_independence, ruleDates_memorial]
  exact buildLoop_spec _ _ _ _ _ _ _ _ ((ey - sy).toNat) sy

/-! ### `get_holiday` (source lines 150-159) -/

/-- The `holidays` tuple set on the instance (source lines 30-36). -/
def holidays : List String :=
  ["Thanksgiving Break", "Labor Day", "MLK Day", "Memorial Day", "Independence Day"]

/-- `attr_name = "_" + holiday.lower().replace(" ", "_")` (source line 152);
lowering and replacing commute, so one character map suffices (performed on
the string's character list). -/
def attrNameOf (holiday : String) : String :=
  "_" ++ String.mk (holiday.data.map (fun c => if c = ' ' then '_' else c.toLower))

/-- The attribute names of a `BSUCalendar` instance that name one of the
eight recurrence-rule methods, with that rule's month and selector. -/
def holidayMethodOf (attr : String) : Option (Int × DayRule) :=
  if attr = "_thanksgiving" then some (11, .nth 3 4)
  else if attr = "_labor_day" then some (9, .nth 0 1)
  else if attr = "_mlk_day" then some (1, .nth 0 3)
  else if attr = "_memorial_day" then some (3, .nth 0 (-1))
  else if attr = "_independence_day" then some (7, .monthDay 4)
  else if attr = "_fall_start" then some (8, .nth 0 (-2))
  else if attr = "_fall_break_start" then some (10, .nth 0 (-2))
  else if attr = "_spring_withdraw_deadline" then some (3, .nth 0 3)
  else none

/-- The method names of class `BSUCalendar` (every `def` in the class body). -/
def methodNames : List String :=
  ["__init__", "get_holiday", "_get_fall_dates", "_get_spring_dates",
   "_get_summer_dates", "_make_semester_df", "_set_logger", "_add_days", "_irule",
   "_thanksgiving", "_labor_day", "_mlk_day", "_memorial_day", "_independence_day",
   "_fall_start", "_fall_break_start", "_spring_withdraw_deadline"]

/-- Instance attributes starting with an underscore that `hasattr` finds but
that are not one of the eight recurrence-rule methods; `get_holiday` calls
them with `dtstart`/`count` keywords, which raises (`AssertionError` from
`_irule`'s `freq` assert, or `TypeError` for the others). -/
def otherUnderscoreAttrs : List String :=
  ["_semesters", "_sem_code_to_int", "_int_to_sem_code", "_logger", "_irule",
   "_add_days", "_set_logger", "_get_fall_dates", "_get_spring_dates",
   "_get_summer_dates", "_make_semester_df"]

/-- `get_holiday(holiday, ac_year)`: resolves `"_" + holiday.lower().replace(" ", "_")`
by attribute lookup; adds one year for MLK Day, Memorial Day and Independence
Day; then takes `list(gen(dtstart = date(year, 1, 1), count = 1))[0]`. -/
def getHoliday (holiday : String) (acYear : Int) : Except CalError Date :=
  let yz : Int :=
    if holiday = "MLK Day" ∨ holiday = "Memorial Day" ∨ holiday = "Independence Day"
    then acYear + 1 else acYear
  match holidayMethodOf (attrNameOf holiday) with
  | some (m, r) =>
      match (ruleDates m r ⟨yz, 1, 1⟩ 1).head? with
      | some dt => .ok dt
      | none => .error .indexError
  | none =>
      if attrNameOf holiday ∈ otherUnderscoreAttrs then
        .error (.attrNotCallableAsRule (attrNameOf holiday))
      else .error (.holidayNotRecognized holiday)

/-! ### `_irule`'s count/until check (source lines 260-279)

After dropping `None`-valued keywords, the source runs

    if not ("until" in kwargs or "count" in kwargs):
        if "until" in kwargs and "count" in kwargs:
            raise ValueError("Specify either count or until, not both")
        else:
            raise ValueError("Must specify either count or until.")

modelled verbatim on the two presence flags. -/
def iruleCheck (hasUntil hasCount : Bool) : Except CalError Unit :=
  if !(hasUntil || hasCount) then
    (if hasUntil && hasCount then
      .error (.configError "Specify either count or until, not both")
    else
      .error (.configError "Must specify either count or until."))
  else .ok ()

/-- Modelled from the spec: the repository's table lookup (`date_in_term`,
source lines 115-121) exists only as commented-out code, so `lookup` is
modelled from the spec's words — resolve the AcademicYear as
`term_code div 100`, fail with LookupError when that year is outside
`[start_year, end_year)` or when the field is unknown for that term,
otherwise return the date. -/
def lookup (sy ey : Int) (termCode : Int) (field : String) : Except CalError Int :=
  let yr := termCode / 100
  if yr < sy ∨ ey ≤ yr then .error (.lookupError "term code outside configured range")
  else
    match rowDate (initRows sy ey) termCode field with
    | some dt => .ok dt
    | none => .error (.lookupError "unknown field")

/-! ### Helper lemmas shared by the claim theorems -/

/-- Whether a Python call returned normally (no exception). -/
def exceptIsOk {ε α : Type} : Except ε α → Bool
  | .ok _ => true
  | .error _ => false

theorem initYds_eq (sy ey : Int) :
    initYds sy ey = (intRange sy ey).map yearDatesOf := by
  unfold initYds
  rw [buildYears_eq]

theorem mapIdOwn {α : Type} (f : α → α) (h : ∀ x, f x = x) :
    ∀ l : List α, l.map f = l := by
  intro l
  induction l with
  | nil => rfl
  | cons x xs ih => rw [List.map_cons, h x, ih]

theorem dateLe_jan1 {m z d : Int} (hm : 1 < m ∨ (m = 1 ∧ 1 ≤ d)) :
    dateLe ⟨z, 1, 1⟩ ⟨z, m, d⟩ = true := by
  simp [dateLe]
  omega

theorem getHoliday_eval (name : String) (acYear yz : Int) (m : Int) (r : DayRule)
    (dt : Date)
    (hmm : holidayMethodOf (attrNameOf name) = some (m, r))
    (hy : (if name = "MLK Day" ∨ name = "Memorial Day" ∨ name = "Independence Day"
           then acYear + 1 else acYear) = yz)
    (hd : (ruleDates m r ⟨yz, 1, 1⟩ 1).head? = some dt) :
    getHoliday name acYear = .ok dt := by
  simp only [getHoliday, hy, hmm, hd]

theorem mlkRule_head (z : Int) :
    (ruleDates 1 (.nth 0 3) ⟨z, 1, 1⟩ 1).head? = some ⟨z, 1, mlkDayFn z⟩ := by
  rw [ruleDates_one 1 _ mlkDayFn z mlk_total
    (dateLe_jan1 (Or.inr ⟨rfl, by have := mlkDayFn_bounds z; omega⟩))]
  rfl

theorem memorialRule_head (z : Int) :
    (ruleDates 3 (.nth 0 (-1)) ⟨z, 1, 1⟩ 1).head? = some ⟨z, 3, memorialDayFn z⟩ := by
  rw [ruleDates_one 3 _ memorialDayFn z memorial_total (dateLe_jan1 (Or.inl (by omega)))]
  rfl

theorem independenceRule_head (z : Int) :
    (ruleDates 7 (.monthDay 4) ⟨z, 1, 1⟩ 1).head? = some ⟨z, 7, 4⟩ := by
  rw [ruleDates_one 7 _ (fun _ => 4) z independence_total (dateLe_jan1 (Or.inl (by omega)))]
  rfl

theorem thanksgivingRule_head (z : Int) :
    (ruleDates 11 (.nth 3 4) ⟨z, 1, 1⟩ 1).head? = some ⟨z, 11, thanksgivingDay z⟩ := by
  rw [ruleDates_one 11 _ thanksgivingDay z thanksgiving_total (dateLe_jan1 (Or.inl (by omega)))]
  rfl

theorem laborRule_head (z : Int) :
    (ruleDates 9 (.nth 0 1) ⟨z, 1, 1⟩ 1).head? = some ⟨z, 9, laborDayFn z⟩ := by
  rw [ruleDates_one 9 _ laborDayFn z labor_total (dateLe_jan1 (Or.inl (by omega)))]
  rfl

theorem fallStartRule_head (z : Int) :
    (ruleDates 8 (.nth 0 (-2)) ⟨z, 1, 1⟩ 1).head? = some ⟨z, 8, fallStartDay z⟩ := by
  rw [ruleDates_one 8 _ fallStartDay z fallStart_total (dateLe_jan1 (Or.inl (by omega)))]
  rfl

theorem fallBreakRule_head (z : Int) :
    (ruleDates 10 (.nth 0 (-2)) ⟨z, 1, 1⟩ 1).head? = some ⟨z, 10, fallBreakDay z⟩ := by
  rw [ruleDates_one 10 _ fallBreakDay z fallBreak_total (dateLe_jan1 (Or.inl (by omega)))]
  rfl

theorem springWithdrawRule_head (z : Int) :
    (ruleDates 3 (.nth 0 3) ⟨z, 1, 1⟩ 1).head? = some ⟨z, 3, springWithdrawDay z⟩ := by
  rw [ruleDates_one 3 _ springWithdrawDay z springWithdraw_total (dateLe_jan1 (Or.inl (by omega)))]
  rfl

/-! ### Claim theorems -/

/-- C1: for every academic year in the configured range, the term boundaries
computed by the constructor satisfy Fall end = Fall start + 116 days,
Spring start = Fall end + 24 days, Spring end = Spring start + 116 days,
Summer start = Spring end + 10 days, and Summer end = Spring start + 68 days
(offset from Spring start, not Spring end). -/
theorem c1_term_boundaries :
    (∀ sy ey : Int, (initYds sy ey).map (fun yd => yd.year) = intRange sy ey) ∧
    (∀ sy ey : Int, (initYds sy ey).Forall (fun yd =>
      yd.fEnd = yd.fStart + 116 ∧ yd.spStart = yd.fEnd + 24 ∧
      yd.spEnd = yd.spStart + 116 ∧ yd.smStart = yd.spEnd + 10 ∧
      yd.smEnd = yd.spStart + 68)) := by
  constructor
  · intro sy ey
    rw [initYds_eq, List.map_map]
    exact mapIdOwn _ (fun yr => rfl) _
  · intro sy ey
    rw [initYds_eq, List.forall_iff_forall_mem]
    intro yd hyd
    rw [List.mem_map] at hyd
    obtain ⟨yr, _, rfl⟩ := hyd
    exact ⟨rfl, rfl, rfl, rfl, rfl⟩

/-- C2 counterexample: constructing for the two academic years 2015 and 2016
creates the memorial-day generator windowed to 2 values, yet after
construction both values are still unconsumed — zero values (not one per
year) were drawn from it. -/
theorem c2_counterexample_memorial_never_drawn :
    (gens0 2015 2017).memorial.length = 2 ∧
    (intRange 2015 2017).length = 2 ∧
    (initLeft 2015 2017).memorial = (gens0 2015 2017).memorial ∧
    (initLeft 2015 2017).memorial ≠ [] := by
  decide

/-- C2 amended: all eight generators are windowed to emit exactly `n_years`
values starting at `min_date`, and during construction exactly one value per
configured year is drawn from seven of them (thanksgiving, labor day, MLK
day, independence day, fall start, fall break start, spring withdraw
deadline) — they end empty — while the memorial-day generator is never drawn
from and keeps all its values. -/
theorem c2_generators_draw_amended :
    (∀ sy ey : Int,
      (gens0 sy ey).fallSt.length = (intRange sy ey).length ∧
      (gens0 sy ey).fbreak.length = (intRange sy ey).length ∧
      (gens0 sy ey).labor.length = (intRange sy ey).length ∧
      (gens0 sy ey).thanks.length = (intRange sy ey).length ∧
      (gens0 sy ey).mlk.length = (intRange sy ey).length ∧
      (gens0 sy ey).swd.length = (intRange sy ey).length ∧
      (gens0 sy ey).indep.length = (intRange sy ey).length ∧
      (gens0 sy ey).memorial.length = (intRange sy ey).length) ∧
    (∀ sy ey : Int,
      buildYears sy ey
        = .ok ((intRange sy ey).map yearDatesOf,
               ⟨[], [], [], [], [], [], [], (gens0 sy ey).memorial⟩)) := by
  constructor
  · intro sy ey
    refine ⟨?_, ?_, ?_, ?_, ?_, ?_, ?_, ?_⟩ <;>
      simp only [gens0, ruleDates_fallStart, ruleDates_fallBreak, ruleDates_labor,
        ruleDates_thanksgiving, ruleDates_mlk, ruleDates_springWithdraw,
        ruleDates_independence, ruleDates_memorial, List.length_map, yearsFrom_length]
  · intro sy ey
    rw [buildYears_eq]
    rw [show (gens0 sy ey).memorial
        = ruleDates 3 (.nth 0 (-1)) ⟨sy, 8, 1⟩ (intRange sy ey).length from rfl,
      ruleDates_memorial]

/-- C3 counterexample: in the table built for academic year 2015, the Fall
"Term End" date minus the Fall "Classes End" date is 1 day, not 4 days. -/
theorem c3_counterexample_term_end_offset :
    (rowDate (initRows 2015 2016) 201510 "Term End").isSome = true ∧
    (rowDate (initRows 2015 2016) 201510 "Classes End").isSome = true ∧
    (rowDate (initRows 2015 2016) 201510 "Term End").getD 0
      - (rowDate (initRows 2015 2016) 201510 "Classes End").getD 0 = 1 ∧
    ¬ ((rowDate (initRows 2015 2016) 201510 "Term End").getD 0
      - (rowDate (initRows 2015 2016) 201510 "Classes End").getD 0 = 4) := by
  decide

/-- C3 amended: for every academic year in the constructed table, the Fall
"Term End" date is "Classes End" + 1 day (Term End = term end − 3 days,
Classes End = term end − 4 days), and the Fall "Finals End" date equals the
Fall "Term Start" date + 116 days. -/
theorem c3_fall_offsets_amended :
    (∀ yr fStart fEnd fBreakStart laborD thankD : Int,
      semRowDate (getFallDates yr fStart fEnd fBreakStart laborD thankD) "Term Start"
        = some fStart ∧
      semRowDate (getFallDates yr fStart fEnd fBreakStart laborD thankD) "Term End"
        = some (fEnd - 3) ∧
      semRowDate (getFallDates yr fStart fEnd fBreakStart laborD thankD) "Classes End"
        = some (fEnd - 4) ∧
      semRowDate (getFallDates yr fStart fEnd fBreakStart laborD thankD) "Finals End"
        = some fEnd) ∧
    (∀ sy ey : Int, (initYds sy ey).Forall (fun yd => yd.fEnd = yd.fStart + 116)) := by
  constructor
  · intro yr fStart fEnd fBreakStart laborD thankD
    exact ⟨rfl, rfl, rfl, rfl⟩
  · intro sy ey
    rw [initYds_eq, List.forall_iff_forall_mem]
    intro yd hyd
    rw [List.mem_map] at hyd
    obtain ⟨yr, _, rfl⟩ := hyd
    rfl

/-- C4: `get_holiday` resolves MLK Day, Memorial Day and Independence Day
against calendar year `ac_year + 1` and Thanksgiving and Labor Day against
`ac_year` directly; in particular `get_holiday("MLK Day", 2019)` returns
2020-01-20, a Monday in January 2020 and the third Monday of that month. -/
theorem c4_get_holiday_year_resolution :
    (∀ acYear : Int,
      getHoliday "MLK Day" acYear = .ok ⟨acYear + 1, 1, mlkDayFn (acYear + 1)⟩ ∧
      getHoliday "Memorial Day" acYear = .ok ⟨acYear + 1, 3, memorialDayFn (acYear + 1)⟩ ∧
      getHoliday "Independence Day" acYear = .ok ⟨acYear + 1, 7, 4⟩ ∧
      getHoliday "Thanksgiving" acYear = .ok ⟨acYear, 11, thanksgivingDay acYear⟩ ∧
      getHoliday "Labor Day" acYear = .ok ⟨acYear, 9, laborDayFn acYear⟩) ∧
    getHoliday "MLK Day" 2019 = .ok ⟨2020, 1, 20⟩ ∧
    dow 2020 1 20 = 0 ∧
    (weekdayDays 2020 1 0).get? 2 = some 20 := by
  refine ⟨?_, by rfl, by decide, by decide⟩
  intro acYear
  refine ⟨?_, ?_, ?_, ?_, ?_⟩
  · exact getHoliday_eval _ acYear (acYear + 1) 1 _ _ rfl
      (if_pos (Or.inl rfl)) (mlkRule_head (acYear + 1))
  · exact getHoliday_eval _ acYear (acYear + 1) 3 _ _ rfl
      (if_pos (Or.inr (Or.inl rfl))) (memorialRule_head (acYear + 1))
  · exact getHoliday_eval _ acYear (acYear + 1) 7 _ _ rfl
      (if_pos (Or.inr (Or.inr rfl))) (independenceRule_head (acYear + 1))
  · exact getHoliday_eval _ acYear acYear 11 _ _ rfl
      (if_neg (by decide)) (thanksgivingRule_head acYear)
  · exact getHoliday_eval _ acYear acYear 9 _ _ rfl
      (if_neg (by decide)) (laborRule_head acYear)

/-- C5: the Fall Term Start anchor the constructor draws for each academic
year is a Monday (weekday 0) in August of that same calendar year, it is the
second-to-last Monday of that August (exactly one August Monday is later),
whether that August has 4 or 5 Mondays, and its rata-die number is the
fall-term start stored for the year. -/
theorem c5_fall_start_second_to_last_monday :
    ∀ sy ey : Int, (initYds sy ey).Forall (fun yd =>
      yd.fStartD.y = yd.year ∧ yd.fStartD.m = 8 ∧
      1 ≤ yd.fStartD.d ∧ yd.fStartD.d ≤ 31 ∧
      dow yd.year 8 yd.fStartD.d = 0 ∧
      yd.fStartD.d ∈ weekdayDays yd.year 8 0 ∧
      ((weekdayDays yd.year 8 0).filter (fun dd => decide (yd.fStartD.d < dd))).length = 1 ∧
      ((weekdayDays yd.year 8 0).length = 4 ∨ (weekdayDays yd.year 8 0).length = 5) ∧
      yd.fStart = yd.fStartD.rd) := by
  intro sy ey
  rw [initYds_eq, List.forall_iff_forall_mem]
  intro yd hyd
  rw [List.mem_map] at hyd
  obtain ⟨yr, _, rfl⟩ := hyd
  have hw0 := dow_nonneg yr 8 1
  have hw7 := dow_lt7 yr 8 1
  have hs := dayMoLast2W_spec (dow yr 8 1) hw0 hw7
  have h2 := dayMoLast2W_second (dow yr 8 1) hw0 hw7
  refine ⟨rfl, rfl, ?_, ?_, ?_, ?_, ?_, ?_, rfl⟩
  · show 1 ≤ dayMoLast2W (dow yr 8 1)
    omega
  · show dayMoLast2W (dow yr 8 1) ≤ 31
    omega
  · show dow yr 8 (dayMoLast2W (dow yr 8 1)) = 0
    rw [dow_linear]
    exact hs.2.2.2
  · show dayMoLast2W (dow yr 8 1) ∈ weekdayDays yr 8 0
    rw [weekdayDays_eq, show daysInMonth yr 8 = 31 from rfl]
    exact h2.1
  · show ((weekdayDays yr 8 0).filter
        (fun dd => decide (dayMoLast2W (dow yr 8 1) < dd))).length = 1
    rw [weekdayDays_eq, show daysInMonth yr 8 = 31 from rfl]
    exact h2.2.1
  · show (weekdayDays yr 8 0).length = 4 ∨ (weekdayDays yr 8 0).length = 5
    rw [weekdayDays_eq, show daysInMonth yr 8 = 31 from rfl]
    exact h2.2.2

/-- C6: in the Spring rows, "Break Start" is "Term Start" + 63 days
(9 weeks) when the academic year is 2013 and "Term Start" + 56 days
(8 weeks) for every other academic year. -/
theorem c6_spring_break_week_offset :
    ∀ yr spStart spEnd mlkD swdD : Int,
      semRowDate (getSpringDates yr spStart spEnd mlkD swdD) "Term Start"
        = some spStart ∧
      semRowDate (getSpringDates yr spStart spEnd mlkD swdD) "Break Start"
        = some (if yr = 2013 then spStart + 63 else spStart + 56) := by
  intro yr spStart spEnd mlkD swdD
  exact ⟨rfl, rfl⟩

/-- C7: `_irule`'s dead branch — supplying both `count` and `until` passes
the check without raising (the both-supplied `ValueError` is unreachable,
nested under the neither-supplied test), supplying neither raises, and
supplying exactly one passes. -/
theorem c7_irule_both_supplied_no_error :
    iruleCheck true true = .ok () ∧
    iruleCheck false false
      = .error (.configError "Must specify either count or until.") ∧
    iruleCheck true false = .ok () ∧
    iruleCheck false true = .ok () :=
  ⟨rfl, rfl, rfl, rfl⟩

/-- C8: the modelled `lookup(term_code, field)` fails with a LookupError for
every term code whose resolved academic year (`term_code div 100`) lies
outside the configured range `[start_year, end_year)`. -/
theorem c8_lookup_out_of_range (sy ey termCode : Int) (field : String)
    (h : termCode / 100 < sy ∨ ey ≤ termCode / 100) :
    lookup sy ey termCode field
      = .error (.lookupError "term code outside configured range") := by
  unfold lookup
  rw [if_pos h]

/-- C8 witness: term code 201710 is outside the configured range
[2015, 2017), and looking it up fails with a LookupError. -/
theorem c8_lookup_out_of_range_witness :
    lookup 2015 2017 201710 "Term Start"
      = .error (.lookupError "term code outside configured range") :=
  c8_lookup_out_of_range 2015 2017 201710 "Term Start" (Or.inr (by decide))

/-- C9: for every pair of construction parameters with
`end_year ≤ start_year` the year range is empty and construction fails (the
`ValueError` that `pd.concat` raises on the empty list of frames — the
spec's ConfigurationError for a non-positive year span). -/
theorem c9_empty_range_construction_fails (sy ey : Int) (h : ey ≤ sy) :
    bsuInit sy ey = .error (.configError "No objects to concatenate") := by
  have hr : intRange sy ey = [] := by
    rw [intRange_eq, show (ey - sy).toNat = 0 from by omega]
    rfl
  unfold bsuInit
  rw [buildYears_eq, hr]
  rfl

/-- C9 witness: constructing with start year 2017 and end year 2015 fails. -/
theorem c9_empty_range_construction_fails_witness :
    bsuInit 2017 2015 = .error (.configError "No objects to concatenate") :=
  c9_empty_range_construction_fails 2017 2015 (by decide)

/-- C10 counterexample: `_irule` is a method of the class and
`"Irule".lower().replace(" ", "_")` prefixed with an underscore names it,
yet `get_holiday("Irule", 2019)` raises (the attribute is not a
recurrence-rule method and calling it with `dtstart`/`count` fails), so
"succeeds exactly when the instance has a method of that name" is false. -/
theorem c10_counterexample_method_not_rule :
    ("_irule" ∈ methodNames) ∧
    attrNameOf "Irule" = "_irule" ∧
    getHoliday "Irule" 2019 = .error (.attrNotCallableAsRule "_irule") :=
  ⟨by decide, rfl, rfl⟩

/-- C10 amended: `get_holiday(name, Y)` returns normally exactly when
`"_" + name.lower().replace(" ", "_")` names one of the eight
recurrence-rule methods (for other existing attributes the call into the
attribute raises, and for unknown attributes the unrecognized-holiday error
is raised); in particular `get_holiday("Thanksgiving Break", Y)` raises the
unrecognized-holiday error although "Thanksgiving Break" is in the
`holidays` tuple, while `get_holiday("Fall Start", Y)` succeeds and returns
the second-to-last Monday of August of year Y although "Fall Start" is not
a listed holiday. -/
theorem c10_get_holiday_dispatch_amended :
    (∀ (name : String) (acYear : Int),
      exceptIsOk (getHoliday name acYear)
        = (holidayMethodOf (attrNameOf name)).isSome) ∧
    (∀ acYear : Int,
      getHoliday "Thanksgiving Break" acYear
        = .error (.holidayNotRecognized "Thanksgiving Break") ∧
      getHoliday "Fall Start" acYear = .ok ⟨acYear, 8, fallStartDay acYear⟩) ∧
    "Thanksgiving Break" ∈ holidays ∧ ¬ ("Fall Start" ∈ holidays) := by
  refine ⟨?_, ?_, by decide, by decide⟩
  · intro name acYear
    simp only [getHoliday, holidayMethodOf]
    split_ifs <;>
      simp [thanksgivingRule_head, laborRule_head, mlkRule_head, memorialRule_head,
        independenceRule_head, fallStartRule_head, fallBreakRule_head,
        springWithdrawRule_head, exceptIsOk]
  · intro acYear
    constructor
    · rfl
    · exact getHoliday_eval _ acYear acYear 8 _ _ rfl
        (if_neg (by decide)) (fallStartRule_head acYear)
